import Mathlib

set_option maxHeartbeats 1000000

/-! Shallow embedding of the virium-csi-driver-iscsi driver.

The pure request-parsing functions (`getISCSIInfo`, `portalMounter`,
`parseSecret`, `parseSessionSecret`, `parseDiscoverySecret`,
`buildISCSIConnector`) are translated directly from
`cmd/virium-iscsiplugin/iscsi_util.go`.  The effectful orchestration
functions (`AttachDisk`, `DetachDisk`) and the controller RPCs
(`CreateVolume`, `DeleteVolume`, `ControllerExpandVolume`) are translated
as functions over an explicit environment of external-call outcomes
(connect, mount, persistence, HTTP, JSON decoding), returning the result
together with the ordered list of external side effects performed and,
for detach, the updated node state. -/

/-- gRPC status codes used by the driver. -/
inductive GrpcCode
  | invalidArgument
  | internal
  | unimplemented
  deriving Repr, DecidableEq

/-- Errors returned by the driver: either a plain `fmt.Errorf` error or a
gRPC `status.Error` carrying a code. -/
inductive CsiError
  | plain (msg : String)
  | grpc (code : GrpcCode) (msg : String)
  deriving Repr, DecidableEq

/-- Whether an error carries the gRPC invalid-argument classification. -/
def isInvalidArgument : CsiError → Bool
  | .grpc .invalidArgument _ => true
  | _ => false

/-- The `Secrets` CHAP credential block; the Go zero value has all fields "". -/
structure Secrets where
  SecretsType : String := ""
  UserName : String := ""
  Password : String := ""
  UserNameIn : String := ""
  PasswordIn : String := ""
  deriving Repr, DecidableEq

/-- The request-scoped iSCSI disk descriptor built by `getISCSIInfo`. -/
structure iscsiDisk where
  Portals : List String := []
  Iqn : String := ""
  lun : Int := 0
  Iface : String := ""
  chapDiscovery : Bool := false
  chapSession : Bool := false
  secret : List (String × String) := []
  sessionSecret : Secrets := {}
  discoverySecret : Secrets := {}
  InitiatorName : String := ""
  VolName : String := ""
  deriving Repr, DecidableEq

/-- The persisted attachment descriptor built by `buildISCSIConnector`. -/
structure Connector where
  VolumeName : String := ""
  TargetIqn : String := ""
  TargetPortals : List String := []
  Lun : Int := 0
  DoCHAPDiscovery : Bool := false
  DiscoverySecrets : Secrets := {}
  SessionSecrets : Secrets := {}
  Interface : String := ""
  deriving Repr, DecidableEq

/-- The part of a `csi.NodePublishVolumeRequest` read by `getISCSIInfo`:
`GetVolumeId()` and `GetVolumeContext()` (a Go string map, modelled as an
association list). -/
structure PublishRequest where
  volumeId : String := ""
  volumeContext : List (String × String) := []
  deriving Repr, DecidableEq

/-- Go map indexing with a string key: a missing key yields the zero value "". -/
def ctxGet (ctx : List (String × String)) (key : String) : String :=
  (ctx.lookup key).getD ""

/-- Outcomes of the `encoding/json.Unmarshal` calls made while parsing a
publish request: decoding the `secret` value into a string map and the
`portals` value into a string list. -/
structure JsonEnv where
  decodeMap : String → Option (List (String × String)) := fun _ => none
  decodeStrList : String → Option (List String) := fun _ => none

/-- Translation of `parseSecret`: a failed unmarshal yields a nil map,
which behaves as the empty map under `len`. -/
def parseSecret (env : JsonEnv) (secretParams : String) : List (String × String) :=
  (env.decodeMap secretParams).getD []

/-- Translation of `parseSessionSecret`. -/
def parseSessionSecret (secretParams : List (String × String)) :
    Secrets × Option String :=
  if secretParams.length = 0 then ({}, none)
  else
    match secretParams.lookup "node.session.auth.username" with
    | none => ({}, some "node.session.auth.username not found in secret")
    | some u =>
      match secretParams.lookup "node.session.auth.password" with
      | none => ({}, some "node.session.auth.password not found in secret")
      | some p =>
        match secretParams.lookup "node.session.auth.username_in" with
        | none => ({}, some "node.session.auth.username_in not found in secret")
        | some uin =>
          match secretParams.lookup "node.session.auth.password_in" with
          | none => ({}, some "node.session.auth.password_in not found in secret")
          | some pin =>
            ({ SecretsType := "chap", UserName := u, Password := p,
               UserNameIn := uin, PasswordIn := pin }, none)

/-- Translation of `parseDiscoverySecret`. -/
def parseDiscoverySecret (secretParams : List (String × String)) :
    Secrets × Option String :=
  if secretParams.length = 0 then ({}, none)
  else
    match secretParams.lookup "node.sendtargets.auth.username" with
    | none => ({}, some "node.sendtargets.auth.username not found in secret")
    | some u =>
      match secretParams.lookup "node.sendtargets.auth.password" with
      | none => ({}, some "node.sendtargets.auth.password not found in secret")
      | some p =>
        match secretParams.lookup "node.sendtargets.auth.username_in" with
        | none => ({}, some "node.sendtargets.auth.username_in not found in secret")
        | some uin =>
          match secretParams.lookup "node.sendtargets.auth.password_in" with
          | none => ({}, some "node.sendtargets.auth.password_in not found in secret")
          | some pin =>
            ({ SecretsType := "chap", UserName := u, Password := p,
               UserNameIn := uin, PasswordIn := pin }, none)

/-- Character-list scan backing `strings.Contains(portal, ":")`. -/
def hasColonChars : List Char → Bool
  | [] => false
  | c :: cs => c == ':' || hasColonChars cs

/-- Whether a portal string already contains a ":" separator. -/
def hasColon (s : String) : Bool := hasColonChars s.data

/-- Translation of `portalMounter`: append the default port 3260 when the
portal has no ":" in it. -/
def portalMounter (portal : String) : String :=
  if hasColon portal then portal else portal ++ ":3260"

/-- Accumulator pass over a decimal digit string, `none` on any non-digit. -/
def digitsVal : List Char → Nat → Option Nat
  | [], acc => some acc
  | c :: cs, acc =>
    if c.isDigit then digitsVal cs (acc * 10 + (c.toNat - '0'.toNat))
    else none

/-- Model of `strconv.Atoi`: an optional sign followed by at least one
decimal digit. -/
def atoi (s : String) : Option Int :=
  match s.data with
  | [] => none
  | '-' :: cs =>
    if cs = [] then none else (digitsVal cs 0).map (fun n => -(n : Int))
  | '+' :: cs =>
    if cs = [] then none else (digitsVal cs 0).map (fun n => (n : Int))
  | cs => (digitsVal cs 0).map (fun n => (n : Int))

/-- Go `int32(x)` conversion: two's-complement truncation of an integer. -/
def toInt32 (n : Int) : Int := (n + 2147483648) % 4294967296 - 2147483648

/-- Translation of `getISCSIInfo` from `iscsi_util.go`.  JSON decoding of
the `secret` and `portals` context values is delegated to the `JsonEnv`
environment, mirroring `encoding/json.Unmarshal`. -/
def getISCSIInfo (env : JsonEnv) (req : PublishRequest) :
    Except CsiError iscsiDisk :=
  let volName := req.volumeId
  let tp := ctxGet req.volumeContext "target_portal"
  let iqn := ctxGet req.volumeContext "target_iqn"
  let lunStr := ctxGet req.volumeContext "lun"
  if tp = "" ∨ iqn = "" ∨ lunStr = "" then
    .error (.plain "ISCSI target information is missing")
  else
    let secret := parseSecret env (ctxGet req.volumeContext "secret")
    match parseSessionSecret secret with
    | (_, some e) => .error (.plain e)
    | (sessionSecret, none) =>
      match parseDiscoverySecret secret with
      | (_, some e) => .error (.plain e)
      | (discoverySecret, none) =>
        let portalList := ctxGet req.volumeContext "portals"
        match (if 0 < portalList.length then
                 (env.decodeStrList portalList).map
                   (fun portals => portalMounter tp :: portals.map portalMounter)
               else some []) with
        | none => .error (.plain "failed to unmarshal portals list")
        | some bkportal =>
          let iface := ctxGet req.volumeContext "iscsiInterface"
          let initiatorName := ctxGet req.volumeContext "initiatorName"
          let chapDiscovery :=
            if ctxGet req.volumeContext "discoveryCHAPAuth" = "false" then false
            else true
          let chapSession :=
            if ctxGet req.volumeContext "sessionCHAPAuth" = "true" then true
            else false
          match (if lunStr = "" then some (0 : Int)
                 else (atoi lunStr).map toInt32) with
          | none => .error (.plain "failed to parse lun")
          | some lunVal =>
            .ok { VolName := volName, Portals := bkportal, Iqn := iqn,
                  lun := lunVal, Iface := iface,
                  chapDiscovery := chapDiscovery, chapSession := chapSession,
                  secret := secret, sessionSecret := sessionSecret,
                  discoverySecret := discoverySecret,
                  InitiatorName := initiatorName }

/-- Translation of `buildISCSIConnector` (nil pointer modelled as `none`). -/
def buildISCSIConnector (iscsiInfo : Option iscsiDisk) : Option Connector :=
  match iscsiInfo with
  | none => none
  | some info =>
    if info.VolName = "" ∨ info.Iqn = "" then none
    else
      let c : Connector :=
        { VolumeName := info.VolName, TargetIqn := info.Iqn,
          TargetPortals := info.Portals, Lun := info.lun,
          DoCHAPDiscovery := info.chapDiscovery,
          DiscoverySecrets := info.discoverySecret,
          SessionSecrets := info.sessionSecret,
          Interface := info.Iface }
      if info.sessionSecret ≠ ({} : Secrets) then
        if info.discoverySecret ≠ ({} : Secrets) then
          some { c with SessionSecrets := info.sessionSecret,
                        DiscoverySecrets := info.discoverySecret }
        else some { c with SessionSecrets := info.sessionSecret }
      else some c

/-- The `VolumeResponse` returned by the remote volume-management API. -/
structure VolumeResponse where
  VolumeID : String := ""
  TargetPortal : String := ""
  Iqn : String := ""
  Lun : String := ""
  DiscoveryCHAPAuth : String := ""
  SessionCHAPAuth : String := ""
  deriving Repr, DecidableEq

/-- Outcomes of the controller server's external calls: the
`viriumHttpClient` request and the JSON decode of its body, plus the
`json.Marshal` used for the `portals` context value. -/
structure CtrlEnv where
  httpResult : Except String String := .ok ""
  decodeVolumeResponse : String → Option VolumeResponse := fun _ => none
  encodeStrList : List String → String := fun _ => "[]"

/-- The `VolumeContext` map assembled by `ControllerServer.CreateVolume`. -/
def createVolumeContext (env : CtrlEnv) (volResp : VolumeResponse) :
    List (String × String) :=
  [("portals", env.encodeStrList [volResp.TargetPortal]),
   ("targetPortal", volResp.TargetPortal),
   ("iqn", volResp.Iqn),
   ("lun", volResp.Lun),
   ("interface", "default"),
   ("discoveryCHAPAuth", volResp.DiscoveryCHAPAuth),
   ("sessionCHAPAuth", volResp.SessionCHAPAuth)]

/-- The `csi.Volume` carried in a `CreateVolumeResponse`. -/
structure CsiVolume where
  volumeId : String := ""
  capacityBytes : Int := 0
  volumeContext : List (String × String) := []
  deriving Repr, DecidableEq

/-- Translation of `ControllerServer.CreateVolume`: POST to the volume API,
decode the response, and build the CSI volume with its context map. -/
def CreateVolume (env : CtrlEnv) (_name : String) (requiredBytes : Int) :
    Except CsiError CsiVolume :=
  match env.httpResult with
  | .error e => .error (.plain ("API request failed: " ++ e))
  | .ok body =>
    match env.decodeVolumeResponse body with
    | none => .error (.plain "failed to parse volume response")
    | some volResp =>
      .ok { volumeId := volResp.VolumeID, capacityBytes := requiredBytes,
            volumeContext := createVolumeContext env volResp }

/-- Translation of `ControllerServer.DeleteVolume`. -/
def DeleteVolume (env : CtrlEnv) (volumeId : String) : Except CsiError Unit :=
  if volumeId = "" then .error (.plain "volume ID is required")
  else
    match env.httpResult with
    | .error e => .error (.plain ("API request failed: " ++ e))
    | .ok _ => .ok ()

/-- Translation of `ControllerServer.ControllerExpandVolume` (capacity range
modelled by its `RequiredBytes`, `none` when the range is missing). -/
def ControllerExpandVolume (env : CtrlEnv) (volumeId : String)
    (capacityRange : Option Int) : Except CsiError Int :=
  if volumeId.length = 0 then
    .error (.grpc .invalidArgument "Volume ID missing in request")
  else
    match capacityRange with
    | none => .error (.grpc .invalidArgument "Capacity Range missing in request")
    | some requiredBytes =>
      match env.httpResult with
      | .error e => .error (.plain ("API request failed: " ++ e))
      | .ok body =>
        match env.decodeVolumeResponse body with
        | none => .error (.plain "failed to parse volume response")
        | some _ => .ok requiredBytes

/-- External side effects observable during `AttachDisk`, in call order.
`persistFileRemoved` and `sessionDisconnected` are the rollback actions the
function could in principle perform; `AttachDisk` never emits them. -/
inductive AEvent
  | connected
  | persistCalled
  | persisted
  | mountCalled
  | persistFileRemoved
  | sessionDisconnected
  deriving Repr, DecidableEq

/-- Outcome of `mounter.IsLikelyNotMountPoint`: a clean answer, an error
satisfying `os.IsNotExist` (the call still reports a `notMnt` value), or any
other error. -/
inductive MountCheckResult
  | ok (notMnt : Bool)
  | errNotExist (notMnt : Bool)
  | errOther (msg : String)
  deriving Repr, DecidableEq

/-- Outcomes of the external calls made by `AttachDisk`: `Connect`, the
mount-point heuristic, `MkdirAll`, `PersistConnector`, `FormatAndMount`. -/
structure AttachEnv where
  connectResult : Except String String := .error "connect failed"
  mountCheck : MountCheckResult := .ok true
  mkdirErr : Option String := none
  persistErr : Option String := none
  mountErr : Option String := none
  deriving Repr

/-- The tail of `AttachDisk` once the mount-point heuristic has produced a
`notMnt` answer: already-mounted no-op, mkdir, persist (fatal on failure),
then format-and-mount. -/
def attachMountPhase (devicePath : String) (notMnt : Bool) (env : AttachEnv) :
    (String × Option String) × List AEvent :=
  match notMnt with
  | false => (("", none), [AEvent.connected])
  | true =>
    match env.mkdirErr with
    | some e => (("", some e), [AEvent.connected])
    | none =>
      match env.persistErr with
      | some _ =>
        (("", some "unable to create persistence file for connection"),
         [AEvent.connected, AEvent.persistCalled])
      | none =>
        match env.mountErr with
        | some e =>
          ((devicePath, some e),
           [AEvent.connected, AEvent.persistCalled, AEvent.persisted,
            AEvent.mountCalled])
        | none =>
          ((devicePath, none),
           [AEvent.connected, AEvent.persistCalled, AEvent.persisted,
            AEvent.mountCalled])

/-- Translation of `ISCSIUtil.AttachDisk`: returns the Go `(string, error)`
pair together with the ordered side effects.  The control flow follows
`iscsi_util.go` line by line: connect, empty-device check, mount-point
check (an `os.IsNotExist` error is tolerated and the reported `notMnt`
value is used), then `attachMountPhase`. -/
def AttachDisk (hasConnector : Bool) (env : AttachEnv) :
    (String × Option String) × List AEvent :=
  if hasConnector = false then (("", some "connector is nil"), [])
  else
    match env.connectResult with
    | .error e => (("", some e), [])
    | .ok devicePath =>
      if devicePath = "" then
        (("", some "connect reported success, but no path returned"),
         [AEvent.connected])
      else
        match env.mountCheck with
        | .errOther m =>
          (("", some ("heuristic determination of mount point failed:" ++ m)),
           [AEvent.connected])
        | .ok notMnt => attachMountPhase devicePath notMnt env
        | .errNotExist notMnt => attachMountPhase devicePath notMnt env

/-- External side effects observable during `DetachDisk`, in call order. -/
inductive DEvent
  | unmountCalled
  | disconnectVolumeCalled
  | logoutCalled
  | removeTargetPathCalled
  | removeConnectorFileCalled
  | warnedAlreadyClosed
  deriving Repr, DecidableEq

/-- Node-local state read and written by `DetachDisk`: the mount-table
reference count of the target path (as returned by
`mount.GetDeviceNameFromMount`), whether the target path exists, and the
persisted Connector file content (none when absent). -/
structure DState where
  refCount : Int := 0
  pathExists : Bool := false
  connectorFile : Option Connector := none
  deriving Repr, DecidableEq

/-- Failure injections for the external calls made by `DetachDisk`:
`GetDeviceNameFromMount`, `PathExists`, a corrupt (present but unreadable)
Connector file, `Unmount`, `DisconnectVolume`, `RemoveAll`, `Remove`. -/
structure DetachEnv where
  getDeviceErr : Option String := none
  pathCheckErr : Option String := none
  loadCorrupt : Option String := none
  unmountErr : Option String := none
  disconnectVolumeErr : Option String := none
  removeAllErr : Option String := none
  removeFileErr : Option String := none
  deriving Repr

/-- Translation of `ISCSIUtil.DetachDisk` as a state-passing function:
reference-count lookup, path-existence check, persisted-Connector load
(absent file is success with a warning, any other load failure is an
Internal error), unmount, reference-count decrement with early success when
still shared, session disconnect, best-effort target logout and directory
removal, and finally deletion of the persisted file. -/
def DetachDisk (env : DetachEnv) (st : DState) :
    Except CsiError Unit × List DEvent × DState :=
  match env.getDeviceErr with
  | some e => (.error (.plain e), [], st)
  | none =>
    let cnt := st.refCount
    match env.pathCheckErr with
    | some e => (.error (.plain ("error checking if path exists: " ++ e)), [], st)
    | none =>
      if st.pathExists = false then (.ok (), [], st)
      else
        match st.connectorFile with
        | none => (.ok (), [DEvent.warnedAlreadyClosed], st)
        | some _ =>
          match env.loadCorrupt with
          | some e => (.error (.grpc .internal e), [], st)
          | none =>
            match env.unmountErr with
            | some e => (.error (.plain e), [DEvent.unmountCalled], st)
            | none =>
              let st1 : DState := { st with refCount := st.refCount - 1 }
              if cnt - 1 ≠ 0 then (.ok (), [DEvent.unmountCalled], st1)
              else
                match env.disconnectVolumeErr with
                | some e =>
                  (.error (.plain e),
                   [DEvent.unmountCalled, DEvent.disconnectVolumeCalled], st1)
                | none =>
                  let st2 : DState :=
                    if env.removeAllErr.isSome then st1
                    else { st1 with pathExists := false }
                  match env.removeFileErr with
                  | some e =>
                    (.error (.plain e),
                     [DEvent.unmountCalled, DEvent.disconnectVolumeCalled,
                      DEvent.logoutCalled, DEvent.removeTargetPathCalled], st2)
                  | none =>
                    (.ok (),
                     [DEvent.unmountCalled, DEvent.disconnectVolumeCalled,
                      DEvent.logoutCalled, DEvent.removeTargetPathCalled,
                      DEvent.removeConnectorFileCalled],
                     { st2 with connectorFile := none })

/-- A `JsonEnv` in which both unmarshal calls fail (no valid JSON inputs). -/
def jsonEnv0 : JsonEnv := {}

/-- A publish request carrying target portal, IQN and LUN but no `portals`
context value. -/
def reqNoPortals : PublishRequest :=
  { volumeId := "vol-1",
    volumeContext := [("target_portal", "10.0.0.5"),
                      ("target_iqn", "iqn.2025-01.test:vol1"),
                      ("lun", "0")] }

/-- The descriptor `getISCSIInfo` builds from `reqNoPortals`. -/
def diskNoPortals : iscsiDisk :=
  { VolName := "vol-1", Portals := [], Iqn := "iqn.2025-01.test:vol1",
    lun := 0, Iface := "", chapDiscovery := true, chapSession := false,
    secret := [], sessionSecret := {}, discoverySecret := {},
    InitiatorName := "" }

/-- A `JsonEnv` whose `portals` decoder yields two extra portal entries. -/
def jsonEnv1 : JsonEnv :=
  { decodeMap := fun _ => none,
    decodeStrList := fun _ => some ["10.0.0.7", "10.0.0.8:3261"] }

/-- A publish request that also carries a non-empty `portals` value. -/
def reqWithPortals : PublishRequest :=
  { volumeId := "vol-2",
    volumeContext := [("target_portal", "10.0.0.5"),
                      ("target_iqn", "iqn.2025-01.test:vol2"),
                      ("lun", "1"),
                      ("portals", "[\"10.0.0.7\",\"10.0.0.8:3261\"]")] }

/-- The descriptor `getISCSIInfo` builds from `reqWithPortals` under
`jsonEnv1`. -/
def diskWithPortals : iscsiDisk :=
  { VolName := "vol-2",
    Portals := ["10.0.0.5:3260", "10.0.0.7:3260", "10.0.0.8:3261"],
    Iqn := "iqn.2025-01.test:vol2", lun := 1, Iface := "",
    chapDiscovery := true, chapSession := false, secret := [],
    sessionSecret := {}, discoverySecret := {}, InitiatorName := "" }

/-- A publish request with an empty volume context. -/
def reqMissingTarget : PublishRequest := { volumeId := "v", volumeContext := [] }

/-- An attach environment in which every external call succeeds. -/
def envHappy : AttachEnv := { connectResult := .ok "/dev/sdx" }

/-- An attach environment in which persisting the Connector fails. -/
def envPersistFail : AttachEnv :=
  { connectResult := .ok "/dev/sdx", persistErr := some "disk full" }

/-- An attach environment in which `FormatAndMount` fails. -/
def envMountFail : AttachEnv :=
  { connectResult := .ok "/dev/sdx", mountErr := some "mount failed" }

/-- A persisted Connector for the sample volume. -/
def connector0 : Connector :=
  { VolumeName := "vol-1", TargetIqn := "iqn.2025-01.test:vol1",
    TargetPortals := ["10.0.0.5:3260"], Lun := 0 }

/-- Node state with one mount reference and a persisted Connector file. -/
def stMounted : DState :=
  { refCount := 1, pathExists := true, connectorFile := some connector0 }

/-- Node state whose target path is shared by a second mount reference. -/
def stShared : DState :=
  { refCount := 2, pathExists := true, connectorFile := some connector0 }

/-- Node state whose persisted Connector file is absent. -/
def stNoFile : DState :=
  { refCount := 1, pathExists := true, connectorFile := none }

/-- A detach environment whose Connector file read fails with a
non-NotExist error. -/
def detachEnvCorrupt : DetachEnv := { loadCorrupt := some "bad json" }

/-- A secret map carrying complete session and discovery CHAP blocks. -/
def spSession : List (String × String) :=
  [("node.session.auth.username", "u"), ("node.session.auth.password", "p"),
   ("node.session.auth.username_in", "ui"),
   ("node.session.auth.password_in", "pi"),
   ("node.sendtargets.auth.username", "du"),
   ("node.sendtargets.auth.password", "dp"),
   ("node.sendtargets.auth.username_in", "dui"),
   ("node.sendtargets.auth.password_in", "dpi")]

/-- The volume API response used in the controller examples. -/
def resp0 : VolumeResponse :=
  { VolumeID := "vol-9", TargetPortal := "10.0.0.9",
    Iqn := "iqn.2025-01.test:vol9", Lun := "0",
    DiscoveryCHAPAuth := "false", SessionCHAPAuth := "false" }

/-- A controller environment whose API call and decode both succeed. -/
def ctrlEnvOk : CtrlEnv :=
  { httpResult := .ok "body",
    decodeVolumeResponse := fun _ => some resp0,
    encodeStrList := fun _ => "[\"10.0.0.9\"]" }

/-- The volume returned by `CreateVolume` under `ctrlEnvOk`. -/
def volCreated : CsiVolume :=
  { volumeId := "vol-9", capacityBytes := 1024,
    volumeContext := createVolumeContext ctrlEnvOk resp0 }

/-- Scanning a concatenation for ':' scans both halves. -/
theorem hasColonChars_append (a b : List Char) :
    hasColonChars (a ++ b) = (hasColonChars a || hasColonChars b) := by
  induction a with
  | nil => rfl
  | cons c cs ih => simp [hasColonChars, ih, Bool.or_assoc]

/-- `portalMounter` always yields a string containing a ':' separator. -/
theorem portalMounter_hasColon (p : String) : hasColon (portalMounter p) = true := by
  unfold portalMounter
  split
  · assumption
  · cases p with
    | mk l =>
      show hasColonChars ((String.mk l ++ ":3260").data) = true
      have hdata : (String.mk l ++ ":3260").data = l ++ ":3260".data := rfl
      rw [hdata, hasColonChars_append]
      have h2 : hasColonChars ":3260".data = true := rfl
      rw [h2, Bool.or_true]

/-- A string of length zero is the empty string. -/
theorem string_eq_empty_of_length_eq_zero (s : String) (h : s.length = 0) :
    s = "" := by
  cases s with
  | mk l =>
    cases l with
    | nil => rfl
    | cons c cs => simp [String.length] at h

/-- A non-empty string has positive length. -/
theorem string_length_pos_of_ne (s : String) (h : s ≠ "") : 0 < s.length :=
  Nat.pos_of_ne_zero (fun h0 => h (string_eq_empty_of_length_eq_zero s h0))

/-- Claim C2: in every `AttachDisk` execution that reaches the mount step,
the Connector is persisted strictly after `Connect` has returned
successfully with a non-empty device path and strictly before
`FormatAndMount` is invoked; and if persistence fails, `AttachDisk` returns
an error without attempting the mount. -/
theorem attachDisk_persist_between_connect_and_mount (hc : Bool)
    (env : AttachEnv) :
    (AEvent.mountCalled ∈ (AttachDisk hc env).2 →
      (AttachDisk hc env).2 =
        [AEvent.connected, AEvent.persistCalled, AEvent.persisted,
         AEvent.mountCalled] ∧
      (AttachDisk hc env).1.1 ≠ "") ∧
    (∀ e, env.persistErr = some e →
      AEvent.persistCalled ∈ (AttachDisk hc env).2 →
      (AttachDisk hc env).1.2 =
        some "unable to create persistence file for connection" ∧
      AEvent.mountCalled ∉ (AttachDisk hc env).2) := by
  constructor
  · intro hmem
    unfold AttachDisk attachMountPhase at hmem ⊢
    repeat' split at hmem
    all_goals simp_all
  · intro e he hpc
    unfold AttachDisk attachMountPhase at hpc ⊢
    repeat' split at hpc
    all_goals simp_all

/-- Claim C7: when `Connect` and persistence succeed but `FormatAndMount`
fails, `AttachDisk` returns the mount error while performing no rollback:
the persisted Connector file is not removed and the session is not
disconnected. -/
theorem attachDisk_mount_failure_no_rollback (env : AttachEnv) (dp e : String)
    (h1 : env.connectResult = .ok dp) (h2 : dp ≠ "")
    (h3 : env.mountCheck = .ok true) (h4 : env.mkdirErr = none)
    (h5 : env.persistErr = none) (h6 : env.mountErr = some e) :
    AttachDisk true env =
      ((dp, some e),
       [AEvent.connected, AEvent.persistCalled, AEvent.persisted,
        AEvent.mountCalled]) ∧
    AEvent.persistFileRemoved ∉ (AttachDisk true env).2 ∧
    AEvent.sessionDisconnected ∉ (AttachDisk true env).2 := by
  refine ⟨?_, ?_, ?_⟩ <;>
    simp [AttachDisk, attachMountPhase, h1, h2, h3, h4, h5, h6]

/-- Claim C3: when the unmount succeeds and the decremented mount-table
reference count is non-zero, `DetachDisk` returns success without
disconnecting the volume, without logging out of any target, and without
deleting the persisted Connector file. -/
theorem detachDisk_shared_mount (env : DetachEnv) (st : DState) (c : Connector)
    (h1 : env.getDeviceErr = none) (h2 : env.pathCheckErr = none)
    (h3 : st.pathExists = true) (h4 : st.connectorFile = some c)
    (h5 : env.loadCorrupt = none) (h6 : env.unmountErr = none)
    (h7 : st.refCount - 1 ≠ 0) :
    (DetachDisk env st).1 = .ok () ∧
    (DetachDisk env st).2.1 = [DEvent.unmountCalled] ∧
    (DetachDisk env st).2.2.connectorFile = some c := by
  refine ⟨?_, ?_, ?_⟩ <;> simp [DetachDisk, h1, h2, h3, h4, h5, h6, h7]

/-- Claim C4: when the target path exists but the persisted Connector file
is absent, `DetachDisk` returns success with a warning; any other load
failure is propagated as an (Internal) error. -/
theorem detachDisk_load (env : DetachEnv) (st : DState)
    (h1 : env.getDeviceErr = none) (h2 : env.pathCheckErr = none)
    (h3 : st.pathExists = true) :
    (st.connectorFile = none →
      DetachDisk env st = (.ok (), [DEvent.warnedAlreadyClosed], st)) ∧
    (∀ c e, st.connectorFile = some c → env.loadCorrupt = some e →
      (DetachDisk env st).1 = .error (.grpc .internal e)) := by
  constructor
  · intro h4
    simp [DetachDisk, h1, h2, h3, h4]
  · intro c e h4 h5
    simp [DetachDisk, h1, h2, h3, h4, h5]

/-- Claim C5: after a `DetachDisk` call performs a full successful teardown,
a second `DetachDisk` call on the same volume and target path returns
success while performing no side effect at all (no unmount, no disconnect,
no deletion). -/
theorem detachDisk_idempotent (st : DState) (c : Connector) (env2 : DetachEnv)
    (h1 : st.pathExists = true) (h2 : st.connectorFile = some c)
    (h3 : st.refCount = 1) (h4 : env2.getDeviceErr = none)
    (h5 : env2.pathCheckErr = none) :
    (DetachDisk {} st).1 = .ok () ∧
    (DetachDisk env2 (DetachDisk {} st).2.2).1 = .ok () ∧
    (DetachDisk env2 (DetachDisk {} st).2.2).2.1 = [] := by
  refine ⟨?_, ?_, ?_⟩ <;> simp [DetachDisk, h1, h2, h3, h4, h5]

/-- Witness for C2: a concrete happy-path run mounts with the full trace,
and a concrete persistence failure reports the fatal persistence error. -/
theorem attachDisk_persist_between_connect_and_mount_witness :
    (AttachDisk true envHappy).2 =
      [AEvent.connected, AEvent.persistCalled, AEvent.persisted,
       AEvent.mountCalled] ∧
    (AttachDisk true envPersistFail).1.2 =
      some "unable to create persistence file for connection" :=
  ⟨((attachDisk_persist_between_connect_and_mount true envHappy).1
      (by decide)).1,
   ((attachDisk_persist_between_connect_and_mount true envPersistFail).2
      "disk full" rfl (by decide)).1⟩

/-- Witness for C7: a concrete mount failure returns the mount error with
no rollback events. -/
theorem attachDisk_mount_failure_no_rollback_witness :
    AttachDisk true envMountFail =
      (("/dev/sdx", some "mount failed"),
       [AEvent.connected, AEvent.persistCalled, AEvent.persisted,
        AEvent.mountCalled]) ∧
    AEvent.persistFileRemoved ∉ (AttachDisk true envMountFail).2 ∧
    AEvent.sessionDisconnected ∉ (AttachDisk true envMountFail).2 :=
  attachDisk_mount_failure_no_rollback envMountFail "/dev/sdx" "mount failed"
    rfl (by decide) rfl rfl rfl rfl

/-- Witness for C3: detaching a target path shared by a second mount only
unmounts and keeps the persisted Connector file. -/
theorem detachDisk_shared_mount_witness :
    (DetachDisk {} stShared).1 = .ok () ∧
    (DetachDisk {} stShared).2.1 = [DEvent.unmountCalled] ∧
    (DetachDisk {} stShared).2.2.connectorFile = some connector0 :=
  detachDisk_shared_mount {} stShared connector0 rfl rfl rfl rfl rfl rfl
    (by decide)

/-- Witness for C4: a missing Connector file yields warned success, and a
corrupt one yields an Internal error. -/
theorem detachDisk_load_witness :
    DetachDisk {} stNoFile = (.ok (), [DEvent.warnedAlreadyClosed], stNoFile) ∧
    (DetachDisk detachEnvCorrupt stMounted).1 = .error (.grpc .internal "bad json") :=
  ⟨(detachDisk_load {} stNoFile rfl rfl rfl).1 rfl,
   (detachDisk_load detachEnvCorrupt stMounted rfl rfl rfl).2 connector0
     "bad json" rfl rfl⟩

/-- Witness for C5: a concrete full teardown followed by a second detach
call that succeeds with no side effects. -/
theorem detachDisk_idempotent_witness :
    (DetachDisk {} stMounted).1 = .ok () ∧
    (DetachDisk {} (DetachDisk {} stMounted).2.2).1 = .ok () ∧
    (DetachDisk {} (DetachDisk {} stMounted).2.2).2.1 = [] :=
  detachDisk_idempotent stMounted connector0 {} rfl rfl rfl rfl rfl

/-- Claim C6: on a non-empty secret map, `parseSessionSecret` and
`parseDiscoverySecret` each either return a Secrets value whose four fields
come from the map with type "chap", or return the zero Secrets with an
error because one of their four required keys is missing; a partially
populated Secrets value is never returned. -/
theorem parseSecrets_all_or_nothing (sp : List (String × String))
    (h : sp ≠ []) :
    (((parseSessionSecret sp).2 = none ∧
       ∃ u p uin pin,
         sp.lookup "node.session.auth.username" = some u ∧
         sp.lookup "node.session.auth.password" = some p ∧
         sp.lookup "node.session.auth.username_in" = some uin ∧
         sp.lookup "node.session.auth.password_in" = some pin ∧
         (parseSessionSecret sp).1 =
           { SecretsType := "chap", UserName := u, Password := p,
             UserNameIn := uin, PasswordIn := pin }) ∨
      ((parseSessionSecret sp).2.isSome ∧ (parseSessionSecret sp).1 = {} ∧
       (sp.lookup "node.session.auth.username" = none ∨
        sp.lookup "node.session.auth.password" = none ∨
        sp.lookup "node.session.auth.username_in" = none ∨
        sp.lookup "node.session.auth.password_in" = none))) ∧
    (((parseDiscoverySecret sp).2 = none ∧
       ∃ u p uin pin,
         sp.lookup "node.sendtargets.auth.username" = some u ∧
         sp.lookup "node.sendtargets.auth.password" = some p ∧
         sp.lookup "node.sendtargets.auth.username_in" = some uin ∧
         sp.lookup "node.sendtargets.auth.password_in" = some pin ∧
         (parseDiscoverySecret sp).1 =
           { SecretsType := "chap", UserName := u, Password := p,
             UserNameIn := uin, PasswordIn := pin }) ∨
      ((parseDiscoverySecret sp).2.isSome ∧ (parseDiscoverySecret sp).1 = {} ∧
       (sp.lookup "node.sendtargets.auth.username" = none ∨
        sp.lookup "node.sendtargets.auth.password" = none ∨
        sp.lookup "node.sendtargets.auth.username_in" = none ∨
        sp.lookup "node.sendtargets.auth.password_in" = none))) := by
  have hlen : ¬ sp.length = 0 := by
    intro h0
    exact h (List.length_eq_zero.mp h0)
  constructor
  · cases h1 : sp.lookup "node.session.auth.username" with
    | none => right; simp [parseSessionSecret, hlen, h1]
    | some u =>
      cases h2 : sp.lookup "node.session.auth.password" with
      | none => right; simp [parseSessionSecret, hlen, h1, h2]
      | some p =>
        cases h3 : sp.lookup "node.session.auth.username_in" with
        | none => right; simp [parseSessionSecret, hlen, h1, h2, h3]
        | some uin =>
          cases h4 : sp.lookup "node.session.auth.password_in" with
          | none => right; simp [parseSessionSecret, hlen, h1, h2, h3, h4]
          | some pin =>
            left
            refine ⟨?_, u, p, uin, pin, rfl, rfl, rfl, rfl, ?_⟩ <;>
              simp [parseSessionSecret, hlen, h1, h2, h3, h4]
  · cases h1 : sp.lookup "node.sendtargets.auth.username" with
    | none => right; simp [parseDiscoverySecret, hlen, h1]
    | some u =>
      cases h2 : sp.lookup "node.sendtargets.auth.password" with
      | none => right; simp [parseDiscoverySecret, hlen, h1, h2]
      | some p =>
        cases h3 : sp.lookup "node.sendtargets.auth.username_in" with
        | none => right; simp [parseDiscoverySecret, hlen, h1, h2, h3]
        | some uin =>
          cases h4 : sp.lookup "node.sendtargets.auth.password_in" with
          | none => right; simp [parseDiscoverySecret, hlen, h1, h2, h3, h4]
          | some pin =>
            left
            refine ⟨?_, u, p, uin, pin, rfl, rfl, rfl, rfl, ?_⟩ <;>
              simp [parseDiscoverySecret, hlen, h1, h2, h3, h4]

/-- Witness for C6: a complete concrete secret map satisfies the
all-or-nothing property for both parsers. -/
theorem parseSecrets_all_or_nothing_witness :
    spSession ≠ [] ∧
    ((((parseSessionSecret spSession).2 = none ∧
       ∃ u p uin pin,
         spSession.lookup "node.session.auth.username" = some u ∧
         spSession.lookup "node.session.auth.password" = some p ∧
         spSession.lookup "node.session.auth.username_in" = some uin ∧
         spSession.lookup "node.session.auth.password_in" = some pin ∧
         (parseSessionSecret spSession).1 =
           { SecretsType := "chap", UserName := u, Password := p,
             UserNameIn := uin, PasswordIn := pin }) ∨
      ((parseSessionSecret spSession).2.isSome ∧
       (parseSessionSecret spSession).1 = {} ∧
       (spSession.lookup "node.session.auth.username" = none ∨
        spSession.lookup "node.session.auth.password" = none ∨
        spSession.lookup "node.session.auth.username_in" = none ∨
        spSession.lookup "node.session.auth.password_in" = none))) ∧
    (((parseDiscoverySecret spSession).2 = none ∧
       ∃ u p uin pin,
         spSession.lookup "node.sendtargets.auth.username" = some u ∧
         spSession.lookup "node.sendtargets.auth.password" = some p ∧
         spSession.lookup "node.sendtargets.auth.username_in" = some uin ∧
         spSession.lookup "node.sendtargets.auth.password_in" = some pin ∧
         (parseDiscoverySecret spSession).1 =
           { SecretsType := "chap", UserName := u, Password := p,
             UserNameIn := uin, PasswordIn := pin }) ∨
      ((parseDiscoverySecret spSession).2.isSome ∧
       (parseDiscoverySecret spSession).1 = {} ∧
       (spSession.lookup "node.sendtargets.auth.username" = none ∨
        spSession.lookup "node.sendtargets.auth.password" = none ∨
        spSession.lookup "node.sendtargets.auth.username_in" = none ∨
        spSession.lookup "node.sendtargets.auth.password_in" = none)))) :=
  ⟨by decide, parseSecrets_all_or_nothing spSession (by decide)⟩

/-- Counterexample to C1 as stated: a publish request supplying non-empty
target_portal, target_iqn and lun values but no `portals` context value
makes `getISCSIInfo` succeed with an empty portal list, so the built
iscsiDisk does not contain at least one portal entry. -/
theorem getISCSIInfo_no_portals_counterexample :
    (getISCSIInfo jsonEnv0 reqNoPortals).map iscsiDisk.Portals = .ok [] := rfl

/-- Claim C1 (amended): when the publish request additionally supplies a
non-empty `portals` context value that decodes as a JSON string list, the
iscsiDisk built by `getISCSIInfo` has a non-empty portal list, every entry
contains a `:` separator (port 3260 appended when the entry had none), and
the Connector built from it carries exactly that list. -/
theorem getISCSIInfo_portals_amended (env : JsonEnv) (req : PublishRequest)
    (d : iscsiDisk) (hok : getISCSIInfo env req = .ok d)
    (hp : ctxGet req.volumeContext "portals" ≠ "") :
    d.Portals ≠ [] ∧ (∀ p ∈ d.Portals, hasColon p = true) ∧
    ∀ c, buildISCSIConnector (some d) = some c →
      c.TargetPortals = d.Portals := by
  have hlen : 0 < (ctxGet req.volumeContext "portals").length :=
    string_length_pos_of_ne _ hp
  simp only [getISCSIInfo] at hok
  rw [if_pos hlen] at hok
  split at hok
  · simp at hok
  · split at hok
    · simp at hok
    · split at hok
      · simp at hok
      · split at hok
        · simp at hok
        · next bkportal heq =>
          split at hok
          · simp at hok
          · cases hok
            rcases Option.map_eq_some'.mp heq with ⟨portals, hdec, hbk⟩
            subst hbk
            refine ⟨by simp, ?_, ?_⟩
            · intro p hpmem
              rcases List.mem_cons.mp hpmem with rfl | hm
              · exact portalMounter_hasColon _
              · rcases List.mem_map.mp hm with ⟨q, _, rfl⟩
                exact portalMounter_hasColon q
            · intro c hc
              simp only [buildISCSIConnector] at hc
              split at hc
              · exact absurd hc (by simp)
              · split at hc
                · split at hc
                  · cases hc; rfl
                  · cases hc; rfl
                · cases hc; rfl

/-- Witness for C1 (amended): a concrete request with a decodable portals
list yields a non-empty, colon-separated portal list preserved by the
Connector. -/
theorem getISCSIInfo_portals_amended_witness :
    diskWithPortals.Portals ≠ [] ∧
    (∀ p ∈ diskWithPortals.Portals, hasColon p = true) ∧
    ∀ c, buildISCSIConnector (some diskWithPortals) = some c →
      c.TargetPortals = diskWithPortals.Portals :=
  getISCSIInfo_portals_amended jsonEnv1 reqWithPortals diskWithPortals rfl
    (by decide)

/-- Claim C10: an iscsiDisk built by `getISCSIInfo` has discovery CHAP on
unless the `discoveryCHAPAuth` context value is exactly "false", and
session CHAP off unless the `sessionCHAPAuth` context value is exactly
"true". -/
theorem getISCSIInfo_chap_defaults (env : JsonEnv) (req : PublishRequest)
    (d : iscsiDisk) (hok : getISCSIInfo env req = .ok d) :
    (d.chapDiscovery = false ↔
      ctxGet req.volumeContext "discoveryCHAPAuth" = "false") ∧
    (d.chapSession = true ↔
      ctxGet req.volumeContext "sessionCHAPAuth" = "true") := by
  simp only [getISCSIInfo] at hok
  split at hok
  · simp at hok
  · split at hok
    · simp at hok
    · split at hok
      · simp at hok
      · split at hok
        · simp at hok
        · split at hok
          · simp at hok
          · cases hok
            constructor
            · dsimp only
              split
              · next hcond => simp [hcond]
              · next hcond => simp [hcond]
            · dsimp only
              split
              · next hcond => simp [hcond]
              · next hcond => simp [hcond]

/-- Witness for C10: the concrete request `reqNoPortals` (no CHAP context
keys) yields discovery CHAP on and session CHAP off. -/
theorem getISCSIInfo_chap_defaults_witness :
    (diskNoPortals.chapDiscovery = false ↔
      ctxGet reqNoPortals.volumeContext "discoveryCHAPAuth" = "false") ∧
    (diskNoPortals.chapSession = true ↔
      ctxGet reqNoPortals.volumeContext "sessionCHAPAuth" = "true") :=
  getISCSIInfo_chap_defaults jsonEnv0 reqNoPortals diskNoPortals rfl

/-- Counterexample to C8 as stated: the missing-field rejections of
`DeleteVolume` (empty volume ID) and `getISCSIInfo` (missing target
information) are plain errors without the invalid-argument
classification. -/
theorem missing_fields_not_invalid_argument_counterexample :
    DeleteVolume ctrlEnvOk "" = .error (.plain "volume ID is required") ∧
    isInvalidArgument (CsiError.plain "volume ID is required") = false ∧
    getISCSIInfo jsonEnv0 reqMissingTarget =
      .error (.plain "ISCSI target information is missing") ∧
    isInvalidArgument (CsiError.plain "ISCSI target information is missing") =
      false :=
  ⟨rfl, rfl, rfl, rfl⟩

/-- Claim C8 (amended): every request missing a required field is rejected
immediately with an error, but only `ControllerExpandVolume` classifies it
as invalid-argument; `getISCSIInfo` and `DeleteVolume` return plain
(unclassified) errors. -/
theorem missing_fields_rejected_amended (jenv : JsonEnv) (cenv : CtrlEnv)
    (req : PublishRequest) (volumeId : String) (capacityRange : Option Int) :
    ((ctxGet req.volumeContext "target_portal" = "" ∨
      ctxGet req.volumeContext "target_iqn" = "" ∨
      ctxGet req.volumeContext "lun" = "") →
      getISCSIInfo jenv req =
        .error (.plain "ISCSI target information is missing")) ∧
    (volumeId = "" →
      DeleteVolume cenv volumeId = .error (.plain "volume ID is required")) ∧
    (volumeId = "" →
      ControllerExpandVolume cenv volumeId capacityRange =
        .error (.grpc .invalidArgument "Volume ID missing in request")) ∧
    (volumeId ≠ "" → capacityRange = none →
      ControllerExpandVolume cenv volumeId capacityRange =
        .error (.grpc .invalidArgument "Capacity Range missing in request")) := by
  refine ⟨?_, ?_, ?_, ?_⟩
  · intro h
    simp only [getISCSIInfo]
    rw [if_pos h]
  · intro h
    subst h
    rfl
  · intro h
    subst h
    rfl
  · intro h hc
    subst hc
    have hz : ¬ volumeId.length = 0 := fun h0 =>
      h (string_eq_empty_of_length_eq_zero _ h0)
    simp [ControllerExpandVolume, hz]

/-- Witness for C8 (amended): concrete instances of each rejection. -/
theorem missing_fields_rejected_amended_witness :
    getISCSIInfo jsonEnv0 reqMissingTarget =
      .error (.plain "ISCSI target information is missing") ∧
    DeleteVolume ctrlEnvOk "" = .error (.plain "volume ID is required") ∧
    ControllerExpandVolume ctrlEnvOk "" (some 100) =
      .error (.grpc .invalidArgument "Volume ID missing in request") ∧
    ControllerExpandVolume ctrlEnvOk "vol-3" none =
      .error (.grpc .invalidArgument "Capacity Range missing in request") :=
  ⟨(missing_fields_rejected_amended jsonEnv0 ctrlEnvOk reqMissingTarget ""
      (some 100)).1 (Or.inl rfl),
   (missing_fields_rejected_amended jsonEnv0 ctrlEnvOk reqMissingTarget ""
      (some 100)).2.1 rfl,
   (missing_fields_rejected_amended jsonEnv0 ctrlEnvOk reqMissingTarget ""
      (some 100)).2.2.1 rfl,
   (missing_fields_rejected_amended jsonEnv0 ctrlEnvOk reqMissingTarget "vol-3"
      none).2.2.2 (by decide) rfl⟩

/-- Claim C9: the volume context produced by a successful `CreateVolume`
stores the portal and IQN under `targetPortal` and `iqn`, so `getISCSIInfo`
finds neither `target_portal` nor `target_iqn` and rejects every publish
request carrying that context. -/
theorem createVolume_context_breaks_publish (cenv : CtrlEnv) (name : String)
    (bytes : Int) (vol : CsiVolume) (jenv : JsonEnv) (pubId : String)
    (hok : CreateVolume cenv name bytes = .ok vol) :
    vol.volumeContext.lookup "target_portal" = none ∧
    vol.volumeContext.lookup "target_iqn" = none ∧
    getISCSIInfo jenv { volumeId := pubId, volumeContext := vol.volumeContext } =
      .error (.plain "ISCSI target information is missing") := by
  unfold CreateVolume at hok
  split at hok
  · simp at hok
  · split at hok
    · simp at hok
    · cases hok
      exact ⟨rfl, rfl, rfl⟩

/-- Witness for C9: the concrete volume created under `ctrlEnvOk` is
rejected by `getISCSIInfo`. -/
theorem createVolume_context_breaks_publish_witness :
    volCreated.volumeContext.lookup "target_portal" = none ∧
    volCreated.volumeContext.lookup "target_iqn" = none ∧
    getISCSIInfo jsonEnv0
        { volumeId := "vol-9", volumeContext := volCreated.volumeContext } =
      .error (.plain "ISCSI target information is missing") :=
  createVolume_context_breaks_publish ctrlEnvOk "pv-9" 1024 volCreated jsonEnv0
    "vol-9" rfl
